import Mathlib

/-!
Shallow embedding of the sequential tool-calling orchestration core of the
course-materials RAG backend (backend/ai_generator.py and
backend/search_tools.py), together with theorems checking the natural
language specification against it.

Conventions of the embedding:
* Python strings are Lean `String`; Python ints are Lean `Int`; Python
  `None`-able values are `Option`.
* Python f-string rendering of ints is embedded by `natStr`/`intStr`
  (decimal digits, leading minus sign for negatives), and rendering of an
  optional int by `pyStrOptInt` (`None` renders as the four letters N,o,n,e).
* Code that can raise returns `Except String α`; a `try/except` block in the
  source becomes a `match` on that `Except`.
* External collaborators (the vector store, the Anthropic client) are
  total oracle functions supplied as parameters; a call that raises is an
  oracle returning `Except.error`.
* `time.time()` timestamps stored in tracking records are real time and are
  omitted from the embedded records; no property refers to them.
-/

/-! ### Decimal rendering of Python integers -/

/-- One decimal digit character, as produced by Python `str` for 0..9. -/
def digitChar (d : Nat) : Char :=
  match d with
  | 0 => '0' | 1 => '1' | 2 => '2' | 3 => '3' | 4 => '4'
  | 5 => '5' | 6 => '6' | 7 => '7' | 8 => '8' | _ => '9'

/-- Inverse of `digitChar` on decimal digit characters. -/
def charToDigit (c : Char) : Nat :=
  match c with
  | '0' => 0 | '1' => 1 | '2' => 2 | '3' => 3 | '4' => 4
  | '5' => 5 | '6' => 6 | '7' => 7 | '8' => 8 | '9' => 9
  | _ => 0

/-- Fuelled decimal rendering (structural recursion on the fuel, so that
the kernel can evaluate it); the fuel is irrelevant as long as it exceeds
the argument. -/
def natCharsGo : Nat → Nat → List Char
  | 0, _ => []
  | fuel + 1, n =>
    if n < 10 then [digitChar n]
    else natCharsGo fuel (n / 10) ++ [digitChar (n % 10)]

/-- Decimal digit list of a natural number, most significant first:
the character sequence Python `str` produces for a nonnegative int. -/
def natChars (n : Nat) : List Char :=
  natCharsGo (n + 1) n

/-- Python `str` of a nonnegative int. -/
def natStr (n : Nat) : String := ⟨natChars n⟩

/-- Python `str` of an int (possibly negative). -/
def intStr : Int → String
  | Int.ofNat n => ⟨natChars n⟩
  | Int.negSucc m => ⟨'-' :: natChars (m + 1)⟩

/-- Python f-string rendering of an optional int: `None` for missing. -/
def pyStrOptInt : Option Int → String
  | none => "None"
  | some i => intStr i

/-- Decimal parser used only to prove `natChars` injective. -/
def parseAux (a : Nat) : List Char → Nat
  | [] => a
  | c :: cs => parseAux (10 * a + charToDigit c) cs

/-! ### Python truthiness helpers -/

/-- Python truthiness of an `Optional[str]`: `None` and the empty string
are falsy. -/
def pyTruthyStrOpt : Option String → Bool
  | none => false
  | some s => s != ""

/-- Python truthiness of an `Optional[int]`: `None` and `0` are falsy. -/
def pyTruthyIntOpt : Option Int → Bool
  | none => false
  | some n => n != 0

/-! ### Data model: sources and search results (backend/search_tools.py) -/

/-- A source record as built by `CourseSearchTool._format_results`:
`{course_title, lesson_number, lesson_link}`.  The formatter always
populates all three keys, so the fields are total here. -/
structure Source where
  course_title : String
  lesson_number : Option Int
  lesson_link : Option String
deriving DecidableEq

/-- A source record after `RoundState.add_sources` copied it and added the
`discovered_in_round` key. -/
structure TaggedSource where
  source : Source
  discovered_in_round : Nat
deriving DecidableEq

/-- Metadata dict attached to one search hit; `_format_results` reads it
with `meta.get(key, default)`, so both fields may be missing. -/
structure ChunkMeta where
  course_title : Option String
  lesson_number : Option Int
deriving DecidableEq

/-- Result object returned by `VectorStore.search`.
`vector_store.py` is not among the sources; the shape is taken from its
consumers in `search_tools.py` and the repository tests
(`SearchResults(documents=..., metadata=..., distances=...)`,
`SearchResults.empty(error_msg)`).  The `distances` list is never read by
the code under analysis and is omitted. -/
structure SearchResults where
  documents : List String
  metadata : List ChunkMeta
  error : Option String
deriving DecidableEq

/-- Modelled from the spec: `vector_store.py` (not among the sources)
defines `SearchResults.is_empty`; per the spec the search service returns
`{matches: [...], error?}` and the zero-matches condition is an empty match
list, which the tests realise as `documents=[]`. -/
def SearchResults.is_empty (r : SearchResults) : Bool :=
  r.documents.isEmpty

/-- The external vector store as consumed by the tools: `search` and
`get_lesson_link` may raise (`Except.error`). -/
structure VectorStoreModel where
  search : String → Option String → Option Int → Except String SearchResults
  get_lesson_link : String → Int → Except String (Option String)

/-! ### CourseSearchTool (backend/search_tools.py, lines 52-129) -/

/-- Loop body of `CourseSearchTool._format_results`: walks
`zip(results.documents, results.metadata)` accumulating the formatted
passages and the source records; a raise from `get_lesson_link`
aborts the whole formatting (propagated `Except.error`). -/
def formatResultsLoop (store : VectorStoreModel) :
    List (String × ChunkMeta) → Except String (List String × List Source)
  | [] => Except.ok ([], [])
  | (doc, meta) :: rest =>
    let course_title := meta.course_title.getD "unknown"
    let header := "[" ++ course_title ++
      (match meta.lesson_number with
       | some n => " - Lesson " ++ intStr n
       | none => "") ++ "]"
    match (match meta.lesson_number with
           | some n => store.get_lesson_link course_title n
           | none => Except.ok none) with
    | Except.error e => Except.error e
    | Except.ok lesson_link =>
      match formatResultsLoop store rest with
      | Except.error e => Except.error e
      | Except.ok (fs, srcs) =>
        Except.ok ((header ++ "\n" ++ doc) :: fs,
          ({ course_title := course_title, lesson_number := meta.lesson_number,
             lesson_link := lesson_link } : Source) :: srcs)

/-- `CourseSearchTool._format_results`: on success returns the passages
joined by blank lines together with the new `last_sources` list (the
assignment `self.last_sources = sources` is the last statement, so an
exception mid-loop leaves `last_sources` untouched). -/
def format_results (store : VectorStoreModel) (results : SearchResults) :
    Except String (String × List Source) :=
  match formatResultsLoop store (results.documents.zip results.metadata) with
  | Except.error e => Except.error e
  | Except.ok (fs, srcs) => Except.ok (String.intercalate "\n\n" fs, srcs)

/-- The apostrophe character, used by several message strings. -/
def squote : String := ⟨[Char.ofNat 39]⟩

/-- `CourseSearchTool.execute`.  State is the `last_sources` field; the
returned pair is (result string, `last_sources` after the call).  The
whole body is wrapped in `try/except` returning
`"Tool execution failed: <message>"`, so the function is total. -/
def CourseSearchTool.execute (store : VectorStoreModel) (last_sources : List Source)
    (query : String) (course_name : Option String) (lesson_number : Option Int) :
    String × List Source :=
  match store.search query course_name lesson_number with
  | Except.error e => ("Tool execution failed: " ++ e, last_sources)
  | Except.ok results =>
    if pyTruthyStrOpt results.error then (results.error.getD "", last_sources)
    else if results.is_empty then
      let filter_info :=
        (if pyTruthyStrOpt course_name then
          " in course " ++ squote ++ course_name.getD "" ++ squote else "") ++
        (if pyTruthyIntOpt lesson_number then
          " in lesson " ++ intStr (lesson_number.getD 0) else "")
      ("No relevant content found" ++ filter_info ++ ".", last_sources)
    else
      match format_results store results with
      | Except.ok (text, srcs) => (text, srcs)
      | Except.error e => ("Tool execution failed: " ++ e, last_sources)

/-! ### ToolManager registration (backend/search_tools.py, lines 229-267) -/

/-- The part of an Anthropic tool definition dict consulted by
`ToolManager.register_tool`: `tool_def.get("name")` plus the description
(kept so that distinct tool instances are distinguishable). -/
structure PyToolDef where
  name : Option String
  description : String
deriving DecidableEq

/-- A registered tool, identified here by its definition. -/
structure PyTool where
  tool_def : PyToolDef
deriving DecidableEq

/-- Python dict assignment `d[k] = v` on an insertion-ordered dict with
unique keys: replaces in place if the key exists, otherwise appends. -/
def dictInsert : List (String × PyTool) → String → PyTool → List (String × PyTool)
  | [], k, v => [(k, v)]
  | (k', v') :: rest, k, v =>
    if k' = k then (k, v) :: rest else (k', v') :: dictInsert rest k v

/-- Python dict lookup `d.get(k)`. -/
def dictGet (l : List (String × PyTool)) (k : String) : Option PyTool :=
  (l.find? (fun p => p.1 = k)).map (fun p => p.2)

/-- `ToolManager`: `self.tools` is a name-keyed dict. -/
structure ToolManager where
  tools : List (String × PyTool)
deriving DecidableEq

/-- `ToolManager.register_tool`: raises `ValueError` when the definition
has no name (Python `if not tool_name:` is true for a missing key and for
the empty string); otherwise assigns `self.tools[tool_name] = tool`. -/
def ToolManager.register_tool (m : ToolManager) (tool : PyTool) : Except String ToolManager :=
  match tool.tool_def.name with
  | none => Except.error ("Tool must have a " ++ squote ++ "name" ++ squote ++ " in its definition")
  | some tool_name =>
    if tool_name = "" then
      Except.error ("Tool must have a " ++ squote ++ "name" ++ squote ++ " in its definition")
    else Except.ok { tools := dictInsert m.tools tool_name tool }

/-! ### RoundState (backend/ai_generator.py, lines 7-53) -/

/-- One entry of `tools_per_round`:
`{tool, result_length, success}` (timestamp omitted, see header). -/
structure ToolInvocationRecord where
  tool : String
  result_length : Nat
  success : Bool
deriving DecidableEq

/-- One entry of `errors_encountered`:
`{round, error}` (timestamp omitted, see header). -/
structure ErrorRecord where
  round : Nat
  error : String
deriving DecidableEq

/-- `RoundState`: execution state across sequential tool calling rounds. -/
structure RoundState where
  round_number : Nat := 0
  total_tools_executed : Nat := 0
  tools_per_round : List (List ToolInvocationRecord) := []
  errors_encountered : List ErrorRecord := []
  sources_accumulated : List TaggedSource := []
deriving DecidableEq

/-- `RoundState.advance_round`. -/
def RoundState.advance_round (st : RoundState) : RoundState :=
  { st with round_number := st.round_number + 1,
            tools_per_round := st.tools_per_round ++ [[]] }

/-- Append an element to the last inner list, used for
`self.tools_per_round[-1].append(...)` after the emptiness guard
`if not self.tools_per_round: self.tools_per_round.append([])`. -/
def appendToLast (r : ToolInvocationRecord) :
    List (List ToolInvocationRecord) → List (List ToolInvocationRecord)
  | [] => [[r]]
  | [l] => [l ++ [r]]
  | l :: ls => l :: appendToLast r ls

/-- `RoundState.add_tool_execution`. -/
def RoundState.add_tool_execution (st : RoundState) (tool_name : String)
    (result : String) (success : Bool) : RoundState :=
  { st with
    tools_per_round :=
      appendToLast { tool := tool_name, result_length := result.length,
                     success := success } st.tools_per_round,
    total_tools_executed := st.total_tools_executed + 1 }

/-- `RoundState.add_error`. -/
def RoundState.add_error (st : RoundState) (error : String) (round_num : Nat) : RoundState :=
  { st with errors_encountered := st.errors_encountered ++ [{ round := round_num, error := error }] }

/-- The deduplication key of `RoundState.add_sources`:
`f-string "{course_title}_{lesson_number}"`. -/
def sourceKey (course_title : String) (lesson_number : Option Int) : String :=
  course_title ++ "_" ++ pyStrOptInt lesson_number

/-- Deduplication key of an incoming source dict. -/
def Source.dedupKey (s : Source) : String :=
  sourceKey s.course_title s.lesson_number

/-- Deduplication key of an accumulated (tagged) source dict: the tag does
not participate in the key. -/
def TaggedSource.dedupKey (t : TaggedSource) : String :=
  t.source.dedupKey

/-- The `for source in sources` loop of `RoundState.add_sources`; `keys` is
the running `dedup_keys` set (only membership is used, so a list models the
Python set faithfully). -/
def addSourcesLoop (round_num : Nat) :
    List TaggedSource → List String → List Source → List TaggedSource
  | acc, _, [] => acc
  | acc, keys, s :: rest =>
    if s.dedupKey ∈ keys then addSourcesLoop round_num acc keys rest
    else addSourcesLoop round_num (acc ++ [{ source := s, discovered_in_round := round_num }])
      (s.dedupKey :: keys) rest

/-- `RoundState.add_sources`: first builds `dedup_keys` from the already
accumulated sources, then walks the incoming list, appending a tagged copy
of each source whose key is new. -/
def RoundState.add_sources (st : RoundState) (sources : List Source) (round_num : Nat) :
    RoundState :=
  let dedup_keys := st.sources_accumulated.map TaggedSource.dedupKey
  { st with sources_accumulated :=
      addSourcesLoop round_num st.sources_accumulated dedup_keys sources }

/-! ### Messages and model responses (backend/ai_generator.py) -/

/-- Arguments of a tool-use request, in the shape accepted by this
repository tools (`query` plus optional filters); the orchestrator never
inspects them, it only forwards them to `execute_tool`. -/
structure ToolInput where
  query : String
  course_name : Option String := none
  lesson_number : Option Int := none
deriving DecidableEq

/-- One content block of a model response: a text block or a tool-use
request `{id, name, input}`. -/
inductive ContentBlock where
  | text : String → ContentBlock
  | tool_use : String → String → ToolInput → ContentBlock
deriving DecidableEq

/-- One `{"type": "tool_result", "tool_use_id": ..., "content": ...}` dict
(the constant `type` field is omitted). -/
structure ToolResultBlock where
  tool_use_id : String
  content : String
deriving DecidableEq

/-- Content of one conversation message. -/
inductive MessageContent where
  | text : String → MessageContent
  | blocks : List ContentBlock → MessageContent
  | results : List ToolResultBlock → MessageContent
deriving DecidableEq

/-- One conversation message `{role, content}`. -/
structure Message where
  role : String
  content : MessageContent
deriving DecidableEq

/-- A model response: `stop_reason` and `content`. -/
structure ModelResponse where
  stop_reason : String
  content : List ContentBlock
deriving DecidableEq

/-- One request to `client.messages.create`, as far as the properties here
observe it: the messages, the system string, and the `tools` parameter
(`none` when the `tools` key is omitted from the request).  Tool schemas
themselves are opaque. -/
structure ModelRequest where
  messages : List Message
  system : String
  tools : Option (List String)
deriving DecidableEq

/-- `response.content[0].text`: Python raises when the content list is
empty or its first block is not a text block. -/
def firstText : List ContentBlock → Except String String
  | ContentBlock.text t :: _ => Except.ok t
  | _ => Except.error "response content has no leading text block"

/-- The tool manager as consumed by `AIGenerator` (duck-typed): a state
type, `execute_tool` (which may raise), `get_last_sources`, and the result
of the `hasattr(tool_manager, 'get_last_sources')` check. -/
structure ToolManagerModel (σ : Type) where
  execute_tool : σ → String → ToolInput → Except String String × σ
  get_last_sources : σ → List Source
  has_get_last_sources : Bool

/-! ### SequentialMessageChain (backend/ai_generator.py, lines 56-92) -/

/-- `SequentialMessageChain`: message log, system prompt, round budget and
the per-query `RoundState`. -/
structure Chain where
  messages : List Message
  system_prompt : String
  max_rounds : Nat
  round_state : RoundState
deriving DecidableEq

/-- `SequentialMessageChain.add_assistant_message`. -/
def Chain.add_assistant_message (c : Chain) (content : List ContentBlock) : Chain :=
  { c with messages := c.messages ++ [{ role := "assistant", content := MessageContent.blocks content }] }

/-- `SequentialMessageChain.add_tool_results`: appends a user-role message
only when the result list is nonempty. -/
def Chain.add_tool_results (c : Chain) (tool_results : List ToolResultBlock) : Chain :=
  if tool_results.isEmpty then c
  else { c with messages := c.messages ++ [{ role := "user", content := MessageContent.results tool_results }] }

/-- `SequentialMessageChain.should_continue_rounds`. -/
def Chain.should_continue_rounds (c : Chain) : Bool :=
  c.round_state.round_number < c.max_rounds

/-- `SequentialMessageChain.advance_round`. -/
def Chain.advance_round (c : Chain) : Chain :=
  { c with round_state := c.round_state.advance_round }

/-! ### AIGenerator, sequential mode (backend/ai_generator.py, lines 210-362) -/

/-- `AIGenerator._execute_round`: builds the request (tool schemas included
only when `tools` is truthy and `should_continue_rounds()`), then calls the
client; a raised client error is rewrapped as `SequentialToolError` with
the round number in the message.  The `client` oracle is indexed by the
number of calls made so far in the query.  Returns the request actually
sent together with the call outcome. -/
def execute_round (client : Nat → Except String ModelResponse) (callIdx : Nat)
    (message_chain : Chain) (tools : List String) (round_num : Nat) :
    ModelRequest × Except String ModelResponse :=
  let hasTools := !tools.isEmpty && message_chain.should_continue_rounds
  let req : ModelRequest :=
    { messages := message_chain.messages, system := message_chain.system_prompt,
      tools := if hasTools then some tools else none }
  match client callIdx with
  | Except.ok r => (req, Except.ok r)
  | Except.error e =>
    (req, Except.error ("Round " ++ natStr round_num ++ " API call failed: " ++ e))

/-- Return value of `_execute_tools_for_round` together with the updated
round state and tool-manager state. -/
structure ToolsRoundResult (σ : Type) where
  tool_results : List ToolResultBlock
  round_sources : List Source
  round_state : RoundState
  tmState : σ

/-- `AIGenerator._execute_tools_for_round`: for every `tool_use` content
block, executes the tool inside `try/except`; on success records a
successful invocation and collects `get_last_sources()`; on a raise records
a failed invocation plus an error record and appends a synthetic
`"Tool execution failed: <message>"` result.  Either way exactly one
tool-result entry per `tool_use` block is appended. -/
def execute_tools_for_round {σ : Type} (tm : ToolManagerModel σ)
    (content : List ContentBlock) (round_num : Nat) (round_state : RoundState)
    (tmSt : σ) : ToolsRoundResult σ :=
  match content with
  | [] => { tool_results := [], round_sources := [], round_state := round_state, tmState := tmSt }
  | ContentBlock.text _ :: rest => execute_tools_for_round tm rest round_num round_state tmSt
  | ContentBlock.tool_use id name input :: rest =>
    match tm.execute_tool tmSt name input with
    | (Except.ok tool_result, tmSt') =>
      let rs' := round_state.add_tool_execution name tool_result true
      let tool_sources := if tm.has_get_last_sources then tm.get_last_sources tmSt' else []
      let srcs := if tool_sources.isEmpty then [] else tool_sources
      let restR := execute_tools_for_round tm rest round_num rs' tmSt'
      { restR with
        tool_results := { tool_use_id := id, content := tool_result } :: restR.tool_results,
        round_sources := srcs ++ restR.round_sources }
    | (Except.error e, tmSt') =>
      let rs' := (round_state.add_tool_execution name e false).add_error e round_num
      let restR := execute_tools_for_round tm rest round_num rs' tmSt'
      { restR with
        tool_results :=
          { tool_use_id := id, content := "Tool execution failed: " ++ e } :: restR.tool_results }

/-- Fixed message of `_execute_final_round` when a round had started. -/
def FINAL_PARTIAL_MSG : String :=
  "I gathered some information but encountered issues providing a complete response."

/-- Fixed message of `_execute_final_round` when no round had started. -/
def FINAL_TECH_MSG : String :=
  "I encountered a technical issue. Please try again."

/-- `AIGenerator._execute_final_round`: one tool-free synthesis call whose
own `try/except` converts any raise (client failure, missing text block)
into a fixed message chosen by `round_number > 0`.  Returns the request
sent and the answer string. -/
def execute_final_round (client : Nat → Except String ModelResponse) (callIdx : Nat)
    (message_chain : Chain) : ModelRequest × String :=
  let req : ModelRequest :=
    { messages := message_chain.messages, system := message_chain.system_prompt, tools := none }
  match client callIdx with
  | Except.ok final_response =>
    match firstText final_response.content with
    | Except.ok t => (req, t)
    | Except.error _ =>
      (req, if message_chain.round_state.round_number > 0 then FINAL_PARTIAL_MSG else FINAL_TECH_MSG)
  | Except.error _ =>
    (req, if message_chain.round_state.round_number > 0 then FINAL_PARTIAL_MSG else FINAL_TECH_MSG)

/-- Observable trace of one `generate_response_sequential` execution: the
final message chain (with its round state), the requests sent to the
model in order, and the final tool-manager state. -/
structure SeqTrace (σ : Type) where
  chain : Chain
  requests : List ModelRequest
  tmState : σ

/-- The `try` block of `generate_response_sequential` (lines 238-267): the
round loop `for round_num in range(1, 3)` is unrolled for the hardcoded
`max_rounds = 2`; the `if not message_chain.should_continue_rounds(): break`
test after round 1 is kept as an explicit branch (after round 2 the loop
ends either way and the final synthesis runs).  An uncaught raise is an
`Except.error` carrying the raise message and the trace at the raise
point; a `return` is an `Except.ok` carrying the answer and the trace. -/
def generate_response_sequential_body {σ : Type}
    (client : Nat → Except String ModelResponse) (system_content : String)
    (query : String) (tools : List String) (tm : ToolManagerModel σ) (tmSt0 : σ) :
    Except (String × SeqTrace σ) (String × SeqTrace σ) :=
  let chain0 : Chain :=
    { messages := [{ role := "user", content := MessageContent.text query }],
      system_prompt := system_content, max_rounds := 2, round_state := {} }
  -- round_num = 1
  let chain1 := chain0.advance_round
  let round1 := execute_round client 0 chain1 tools 1
  match round1.2 with
  | Except.error e => Except.error (e, { chain := chain1, requests := [round1.1], tmState := tmSt0 })
  | Except.ok resp1 =>
    if resp1.stop_reason != "tool_use" then
      match firstText resp1.content with
      | Except.ok t => Except.ok (t, { chain := chain1, requests := [round1.1], tmState := tmSt0 })
      | Except.error e =>
        Except.error (e, { chain := chain1, requests := [round1.1], tmState := tmSt0 })
    else
      let r1 := execute_tools_for_round tm resp1.content 1 chain1.round_state tmSt0
      let chain1a := { chain1 with round_state := r1.round_state }
      let chain1b := (chain1a.add_assistant_message resp1.content).add_tool_results r1.tool_results
      let chain1c :=
        if r1.round_sources.isEmpty then chain1b
        else { chain1b with round_state := chain1b.round_state.add_sources r1.round_sources 1 }
      if !chain1c.should_continue_rounds then
        -- break after round 1, then final synthesis
        let fin := execute_final_round client 1 chain1c
        Except.ok (fin.2, { chain := chain1c, requests := [round1.1, fin.1], tmState := r1.tmState })
      else
        -- round_num = 2
        let chain2 := chain1c.advance_round
        let round2 := execute_round client 1 chain2 tools 2
        match round2.2 with
        | Except.error e =>
          Except.error (e, { chain := chain2, requests := [round1.1, round2.1], tmState := r1.tmState })
        | Except.ok resp2 =>
          if resp2.stop_reason != "tool_use" then
            match firstText resp2.content with
            | Except.ok t =>
              Except.ok (t, { chain := chain2, requests := [round1.1, round2.1], tmState := r1.tmState })
            | Except.error e =>
              Except.error (e, { chain := chain2, requests := [round1.1, round2.1], tmState := r1.tmState })
          else
            let r2 := execute_tools_for_round tm resp2.content 2 chain2.round_state r1.tmState
            let chain2a := { chain2 with round_state := r2.round_state }
            let chain2b := (chain2a.add_assistant_message resp2.content).add_tool_results r2.tool_results
            let chain2c :=
              if r2.round_sources.isEmpty then chain2b
              else { chain2b with round_state := chain2b.round_state.add_sources r2.round_sources 2 }
            -- loop ends (round budget spent), final synthesis without tools
            let fin := execute_final_round client 2 chain2c
            Except.ok (fin.2, { chain := chain2c, requests := [round1.1, round2.1, fin.1], tmState := r2.tmState })

/-- Fixed message of the query-boundary handler when a round had started. -/
def PARTIAL_MSG : String :=
  "I was able to gather some information, though I encountered issues completing my analysis. Please try rephrasing your question."

/-- Fixed message of the query-boundary handler when no round had started. -/
def TECH_MSG : String :=
  "I encountered a technical issue while processing your query. Please try again."

/-- Result of `generate_response_sequential`: answer plus trace. -/
structure SeqResult (σ : Type) where
  answer : String
  trace : SeqTrace σ

/-- `AIGenerator.generate_response_sequential`: runs the body under the
query-boundary `except Exception` handler, which converts any raise into a
fixed message chosen by `message_chain.round_state.round_number > 0`.  The
system string is passed in already built (its concrete text is irrelevant
to every property stated here). -/
def generate_response_sequential {σ : Type}
    (client : Nat → Except String ModelResponse) (system_content : String)
    (query : String) (tools : List String) (tm : ToolManagerModel σ) (tmSt0 : σ) :
    SeqResult σ :=
  match generate_response_sequential_body client system_content query tools tm tmSt0 with
  | Except.ok (answer, tr) => { answer := answer, trace := tr }
  | Except.error (_, tr) =>
    { answer := if tr.chain.round_state.round_number > 0 then PARTIAL_MSG else TECH_MSG,
      trace := tr }

/-! ### AIGenerator, single-round mode (backend/ai_generator.py, lines 164-208 and 364-410) -/

/-- The tool-execution loop of `AIGenerator._handle_tool_execution`
(lines 383-395): for every `tool_use` block it calls
`tool_manager.execute_tool` with NO surrounding `try/except`, so the first
raise aborts the loop and propagates. -/
def runToolsNoCatch {σ : Type} (tm : ToolManagerModel σ) (tmSt : σ) :
    List ContentBlock → Except String (List ToolResultBlock × σ)
  | [] => Except.ok ([], tmSt)
  | ContentBlock.text _ :: rest => runToolsNoCatch tm tmSt rest
  | ContentBlock.tool_use id name input :: rest =>
    match tm.execute_tool tmSt name input with
    | (Except.error e, _) => Except.error e
    | (Except.ok tool_result, tmSt') =>
      match runToolsNoCatch tm tmSt' rest with
      | Except.error e => Except.error e
      | Except.ok (results, tmSt'') =>
        Except.ok ({ tool_use_id := id, content := tool_result } :: results, tmSt'')

/-- `AIGenerator._handle_tool_execution`: appends the assistant turn,
executes all tool calls (uncaught), appends the tool results as a single
user turn when nonempty, then makes one follow-up call without tools. -/
def handle_tool_execution {σ : Type} (client : Nat → Except String ModelResponse)
    (tm : ToolManagerModel σ) (tmSt : σ) (initial_content : List ContentBlock)
    (base_messages : List Message) : Except String (String × σ) :=
  let messages := base_messages ++
    [{ role := "assistant", content := MessageContent.blocks initial_content }]
  match runToolsNoCatch tm tmSt initial_content with
  | Except.error e => Except.error e
  | Except.ok (tool_results, tmSt') =>
    let _messages' :=
      if tool_results.isEmpty then messages
      else messages ++ [{ role := "user", content := MessageContent.results tool_results }]
    match client 1 with
    | Except.error e => Except.error e
    | Except.ok final_response =>
      match firstText final_response.content with
      | Except.ok t => Except.ok (t, tmSt')
      | Except.error e => Except.error e

/-- `AIGenerator.generate_response` (single-round mode): one call with the
tools offered; on a `tool_use` stop reason with a tool manager present,
defers to `_handle_tool_execution`; raises (`Except.error`) are NOT caught
anywhere in this path. -/
def generate_response {σ : Type} (client : Nat → Except String ModelResponse)
    (query : String) (tmOpt : Option (ToolManagerModel σ × σ)) :
    Except String String :=
  let base_messages : List Message := [{ role := "user", content := MessageContent.text query }]
  match client 0 with
  | Except.error e => Except.error e
  | Except.ok response =>
    match tmOpt with
    | some (tm, tmSt) =>
      if response.stop_reason == "tool_use" then
        match handle_tool_execution client tm tmSt response.content base_messages with
        | Except.ok (t, _) => Except.ok t
        | Except.error e => Except.error e
      else firstText response.content
    | none => firstText response.content

/-! ### A ToolManager holding exactly one CourseSearchTool -/

/-- `ToolManager.get_last_sources` for a registry whose only
source-tracking tool is one `CourseSearchTool`: returns that tool
`last_sources` when nonempty, otherwise the empty fallback. -/
def managerGetLastSources (last_sources : List Source) : List Source :=
  if last_sources.isEmpty then [] else last_sources

/-- `ToolManager.execute_tool`/`get_last_sources` for a registry containing
exactly the `CourseSearchTool` (registered name `search_course_content`),
as the duck-typed `ToolManagerModel` consumed by the orchestrator.  An
unknown tool name returns the `"Tool '<name>' not found"` string, not a
raise; the search tool itself never raises, so `execute_tool` is always
`Except.ok`. -/
def courseSearchToolManager (store : VectorStoreModel) : ToolManagerModel (List Source) :=
  { execute_tool := fun last_sources name input =>
      if name = "search_course_content" then
        let r := CourseSearchTool.execute store last_sources
          input.query input.course_name input.lesson_number
        (Except.ok r.1, r.2)
      else (Except.ok ("Tool " ++ squote ++ name ++ squote ++ " not found"), last_sources),
    get_last_sources := managerGetLastSources,
    has_get_last_sources := true }

/-! ### Derived observation functions used by the theorems -/

/-- The ids of the `tool_use` blocks of a response content list, in order. -/
def toolUseIds : List ContentBlock → List String
  | [] => []
  | ContentBlock.tool_use id _ _ :: rest => id :: toolUseIds rest
  | ContentBlock.text _ :: rest => toolUseIds rest

/-- Number of failed invocation records in a round state. -/
def countFailures (st : RoundState) : Nat :=
  (st.tools_per_round.flatten.filter (fun r => !r.success)).length

/-- Apply a sequence of `add_sources` calls (each a source list with its
round number) to a round state. -/
def runAddSources (st : RoundState) : List (List Source × Nat) → RoundState
  | [] => st
  | (srcs, r) :: rest => runAddSources (st.add_sources srcs r) rest

/-- The discovery stream of a sequence of `add_sources` calls: every
incoming source paired with the round number of its call, in order. -/
def discoveries : List (List Source × Nat) → List (Source × Nat)
  | [] => []
  | (srcs, r) :: rest => srcs.map (fun s => (s, r)) ++ discoveries rest

/-- The identity key of a source: `(course_title, lesson_number)`. -/
def identityKey (s : Source) : String × Option Int :=
  (s.course_title, s.lesson_number)

/-- One deduplication step at the accumulated-list level: append the tagged
source if and only if its key is not already present. -/
def dedupStep (acc : List TaggedSource) (p : Source × Nat) : List TaggedSource :=
  if p.1.dedupKey ∈ acc.map TaggedSource.dedupKey then acc
  else acc ++ [{ source := p.1, discovered_in_round := p.2 }]

/-! ### Concrete oracles used to evaluate the embedding at specific inputs -/

/-- A tool manager whose only tool always succeeds with `"result"`. -/
def tmOkUnit : ToolManagerModel Unit :=
  { execute_tool := fun _ _ _ => (Except.ok "result", ()),
    get_last_sources := fun _ => [],
    has_get_last_sources := true }

/-- A tool manager whose tool always raises `"boom"`. -/
def tmRaiseUnit : ToolManagerModel Unit :=
  { execute_tool := fun _ _ _ => (Except.error "boom", ()),
    get_last_sources := fun _ => [],
    has_get_last_sources := true }

/-- A model that requests one tool call in rounds 1 and 2 and answers with
text on the third call. -/
def clientToolsBothRounds : Nat → Except String ModelResponse := fun n =>
  if n = 0 then
    Except.ok { stop_reason := "tool_use",
                content := [ContentBlock.tool_use "t1" "search_course_content" { query := "q1" }] }
  else if n = 1 then
    Except.ok { stop_reason := "tool_use",
                content := [ContentBlock.tool_use "t2" "search_course_content" { query := "q2" }] }
  else Except.ok { stop_reason := "end_turn", content := [ContentBlock.text "final synthesis"] }

/-- A model whose every call raises. -/
def clientDown : Nat → Except String ModelResponse := fun _ =>
  Except.error "connection error"

/-- A model that requests one tool call in round 1 and answers with text in
round 2. -/
def clientToolThenText : Nat → Except String ModelResponse := fun n =>
  if n = 0 then
    Except.ok { stop_reason := "tool_use",
                content := [ContentBlock.tool_use "t1" "search_course_content" { query := "q1" }] }
  else Except.ok { stop_reason := "end_turn", content := [ContentBlock.text "round two answer"] }

/-- A vector store whose search always succeeds with zero matches. -/
def storeNoResults : VectorStoreModel :=
  { search := fun _ _ _ => Except.ok { documents := [], metadata := [], error := none },
    get_lesson_link := fun _ _ => Except.ok none }

/-- A vector store whose search always raises. -/
def storeRaises : VectorStoreModel :=
  { search := fun _ _ _ => Except.error "db down",
    get_lesson_link := fun _ _ => Except.ok none }

/-! ## Auxiliary lemmas

### Decimal rendering: injectivity and character classes -/

theorem charToDigit_digitChar (d : Nat) (h : d < 10) :
    charToDigit (digitChar d) = d := by
  interval_cases d <;> rfl

theorem natCharsGo_irrel (f1 : Nat) : ∀ (f2 n : Nat), n < f1 → n < f2 →
    natCharsGo f1 n = natCharsGo f2 n := by
  induction f1 with
  | zero => intro f2 n h1 _; omega
  | succ f1 ih =>
    intro f2 n h1 h2
    cases f2 with
    | zero => omega
    | succ f2 =>
      simp only [natCharsGo]
      by_cases h10 : n < 10
      · simp [h10]
      · rw [if_neg h10, if_neg h10]
        have hq : n / 10 < n := Nat.div_lt_self (by omega) (by omega)
        rw [ih f2 (n / 10) (by omega) (by omega)]

theorem natChars_eq (n : Nat) :
    natChars n = if n < 10 then [digitChar n]
      else natChars (n / 10) ++ [digitChar (n % 10)] := by
  show natCharsGo (n + 1) n = _
  simp only [natCharsGo]
  by_cases h10 : n < 10
  · simp [h10]
  · rw [if_neg h10, if_neg h10]
    have hq : n / 10 < n := Nat.div_lt_self (by omega) (by omega)
    rw [natCharsGo_irrel n (n / 10 + 1) (n / 10) (by omega) (by omega)]
    rfl

theorem digitChar_mem (d : Nat) :
    digitChar d ∈ ['0','1','2','3','4','5','6','7','8','9'] := by
  unfold digitChar
  split <;> decide

theorem parseAux_append (l : List Char) (a : Nat) (c : Char) :
    parseAux a (l ++ [c]) = 10 * parseAux a l + charToDigit c := by
  induction l generalizing a with
  | nil => rfl
  | cons d rest ih => simp [parseAux, ih]

theorem parseAux_natChars (n : Nat) : parseAux 0 (natChars n) = n := by
  induction n using Nat.strong_induction_on with
  | _ n ih =>
    rw [natChars_eq]
    split
    case isTrue h =>
      simp [parseAux, charToDigit_digitChar n h]
    case isFalse h =>
      rw [parseAux_append, ih (n / 10) (Nat.div_lt_self (by omega) (by omega)),
        charToDigit_digitChar (n % 10) (Nat.mod_lt n (by omega))]
      omega

theorem natChars_inj {m n : Nat} (h : natChars m = natChars n) : m = n := by
  have hm := parseAux_natChars m
  rw [h, parseAux_natChars n] at hm
  exact hm.symm

theorem natChars_mem_digits (n : Nat) (c : Char) (h : c ∈ natChars n) :
    c ∈ (['0','1','2','3','4','5','6','7','8','9'] : List Char) := by
  induction n using Nat.strong_induction_on with
  | _ n ih =>
    rw [natChars_eq] at h
    split at h
    case isTrue =>
      simp only [List.mem_singleton] at h
      exact h ▸ digitChar_mem n
    case isFalse hn =>
      rcases List.mem_append.mp h with h' | h'
      · exact ih (n / 10) (Nat.div_lt_self (by omega) (by omega)) h'
      · simp only [List.mem_singleton] at h'
        exact h' ▸ digitChar_mem (n % 10)

theorem natChars_not_dash (n : Nat) (h : '-' ∈ natChars n) : False := by
  have := natChars_mem_digits n '-' h
  simp at this

theorem string_ext {a b : String} (h : a.data = b.data) : a = b := by
  cases a; cases b; exact congrArg String.mk h

theorem intStr_inj {i j : Int} (h : intStr i = intStr j) : i = j := by
  have hd : (intStr i).data = (intStr j).data := by rw [h]
  match i, j with
  | Int.ofNat n, Int.ofNat m =>
    simp only [intStr] at hd
    exact congrArg Int.ofNat (natChars_inj hd)
  | Int.negSucc n, Int.negSucc m =>
    simp only [intStr, List.cons.injEq, true_and] at hd
    have h1 := natChars_inj hd
    have h2 : n = m := by omega
    rw [h2]
  | Int.ofNat n, Int.negSucc m =>
    simp only [intStr] at hd
    exact absurd (hd ▸ List.mem_cons_self '-' _) (fun hc => natChars_not_dash n hc)
  | Int.negSucc n, Int.ofNat m =>
    simp only [intStr] at hd
    exact absurd (hd ▸ List.mem_cons_self '-' _) (fun hc => natChars_not_dash m hc)

theorem pyStrOptInt_head_not_N (i : Int) (h : (intStr i).data = 'N' :: ("one".data)) :
    False := by
  match i with
  | Int.ofNat n =>
    simp only [intStr] at h
    have : 'N' ∈ natChars n := h ▸ List.mem_cons_self 'N' _
    have := natChars_mem_digits n 'N' this
    simp at this
  | Int.negSucc m =>
    simp [intStr] at h

theorem pyStrOptInt_inj {l l' : Option Int} (h : pyStrOptInt l = pyStrOptInt l') :
    l = l' := by
  match l, l' with
  | none, none => rfl
  | some i, some j =>
    simp only [pyStrOptInt] at h
    exact congrArg some (intStr_inj h)
  | none, some j =>
    simp only [pyStrOptInt] at h
    exact absurd (congrArg String.data h.symm) (fun hd => pyStrOptInt_head_not_N j hd)
  | some i, none =>
    simp only [pyStrOptInt] at h
    exact absurd (congrArg String.data h) (fun hd => pyStrOptInt_head_not_N i hd)

theorem pyStrOptInt_no_underscore (l : Option Int) (h : '_' ∈ (pyStrOptInt l).data) :
    False := by
  match l with
  | none => simp [pyStrOptInt] at h
  | some (Int.ofNat n) =>
    simp only [pyStrOptInt, intStr] at h
    have := natChars_mem_digits n '_' h
    simp at this
  | some (Int.negSucc m) =>
    simp only [pyStrOptInt, intStr] at h
    rcases List.mem_cons.mp h with h' | h'
    · exact absurd h' (by decide)
    · have := natChars_mem_digits (m + 1) '_' h'
      simp at this

theorem sep_unique (d1 : List Char) (d2 s1 s2 : List Char)
    (h1 : '_' ∉ s1) (h2 : '_' ∉ s2)
    (h : d1 ++ '_' :: s1 = d2 ++ '_' :: s2) : d1 = d2 ∧ s1 = s2 := by
  induction d1 generalizing d2 with
  | nil =>
    cases d2 with
    | nil => simpa using h
    | cons c rest =>
      simp only [List.nil_append, List.cons_append, List.cons.injEq] at h
      exact absurd (h.2 ▸ List.mem_append_right rest (List.mem_cons_self '_' s2))
        h1
  | cons c rest ih =>
    cases d2 with
    | nil =>
      simp only [List.cons_append, List.nil_append, List.cons.injEq] at h
      exact absurd (h.2.symm ▸ List.mem_append_right rest (List.mem_cons_self '_' s1))
        h2
    | cons c' rest' =>
      simp only [List.cons_append, List.cons.injEq] at h
      obtain ⟨he, ht⟩ := h
      obtain ⟨hd, hs⟩ := ih rest' ht
      exact ⟨by rw [he, hd], hs⟩

theorem sourceKey_data (t : String) (l : Option Int) :
    (sourceKey t l).data = t.data ++ '_' :: (pyStrOptInt l).data := by
  simp [sourceKey, String.data_append]

theorem sourceKey_inj {t1 t2 : String} {l1 l2 : Option Int}
    (h : sourceKey t1 l1 = sourceKey t2 l2) : t1 = t2 ∧ l1 = l2 := by
  have hd := congrArg String.data h
  rw [sourceKey_data, sourceKey_data] at hd
  obtain ⟨ht, hl⟩ := sep_unique t1.data t2.data _ _
    (fun hc => pyStrOptInt_no_underscore l1 hc)
    (fun hc => pyStrOptInt_no_underscore l2 hc) hd
  exact ⟨string_ext ht, pyStrOptInt_inj (string_ext hl)⟩

theorem dedupKey_eq_iff (s1 s2 : Source) :
    s1.dedupKey = s2.dedupKey ↔ identityKey s1 = identityKey s2 := by
  constructor
  · intro h
    obtain ⟨ht, hl⟩ := sourceKey_inj h
    simp [identityKey, ht, hl]
  · intro h
    simp only [identityKey, Prod.mk.injEq] at h
    simp [Source.dedupKey, sourceKey, h.1, h.2]

/-! ### Source deduplication: fold characterisation of `add_sources` -/

theorem find?_congr {α : Type} (l : List α) (f g : α → Bool) (h : ∀ x, f x = g x) :
    l.find? f = l.find? g := by
  induction l with
  | nil => rfl
  | cons a t ih =>
    simp only [List.find?_cons]
    rw [h a, ih]

theorem addSourcesLoop_as_fold (round_num : Nat) (srcs : List Source)
    (acc : List TaggedSource) (keys : List String)
    (hinv : ∀ k, k ∈ keys ↔ k ∈ acc.map TaggedSource.dedupKey) :
    addSourcesLoop round_num acc keys srcs =
      (srcs.map (fun s => (s, round_num))).foldl dedupStep acc := by
  induction srcs generalizing acc keys with
  | nil => rfl
  | cons s rest ih =>
    simp only [addSourcesLoop, List.map_cons, List.foldl_cons]
    by_cases hmem : s.dedupKey ∈ acc.map TaggedSource.dedupKey
    · rw [if_pos ((hinv s.dedupKey).mpr hmem)]
      have hstep : dedupStep acc (s, round_num) = acc := by
        simp [dedupStep, hmem]
      rw [hstep]
      exact ih acc keys hinv
    · rw [if_neg (fun hk => hmem ((hinv s.dedupKey).mp hk))]
      have hstep : dedupStep acc (s, round_num) =
          acc ++ [{ source := s, discovered_in_round := round_num }] := by
        simp [dedupStep, hmem]
      rw [hstep]
      apply ih
      intro k
      simp only [List.mem_cons, List.map_append, List.mem_append, List.map_cons,
        List.map_nil, List.mem_singleton, hinv k]
      have : TaggedSource.dedupKey { source := s, discovered_in_round := round_num } =
        s.dedupKey := rfl
      constructor
      · rintro (hk | hk)
        · exact Or.inr (by simp [this, hk])
        · exact Or.inl hk
      · rintro (hk | hk)
        · exact Or.inr hk
        · exact Or.inl (by simpa [this] using hk)

theorem runAddSources_as_fold (calls : List (List Source × Nat)) (st : RoundState) :
    (runAddSources st calls).sources_accumulated =
      (discoveries calls).foldl dedupStep st.sources_accumulated := by
  induction calls generalizing st with
  | nil => rfl
  | cons c rest ih =>
    obtain ⟨srcs, r⟩ := c
    simp only [runAddSources, discoveries, List.foldl_append]
    rw [ih]
    congr 1
    simp only [RoundState.add_sources]
    exact addSourcesLoop_as_fold r srcs st.sources_accumulated _ (fun k => Iff.rfl)

theorem dedupStep_key_mem (acc : List TaggedSource) (p : Source × Nat) :
    p.1.dedupKey ∈ (dedupStep acc p).map TaggedSource.dedupKey := by
  unfold dedupStep
  split
  case isTrue h => exact h
  case isFalse h =>
    simp [TaggedSource.dedupKey]

theorem dedupStep_key_mono (acc : List TaggedSource) (p : Source × Nat) (k : String)
    (h : k ∈ acc.map TaggedSource.dedupKey) :
    k ∈ (dedupStep acc p).map TaggedSource.dedupKey := by
  unfold dedupStep
  split
  case isTrue _ => exact h
  case isFalse _ =>
    simp only [List.map_append, List.mem_append]
    exact Or.inl h

theorem dedupStep_keys_nodup (acc : List TaggedSource) (p : Source × Nat)
    (h : (acc.map TaggedSource.dedupKey).Nodup) :
    ((dedupStep acc p).map TaggedSource.dedupKey).Nodup := by
  unfold dedupStep
  split
  case isTrue _ => exact h
  case isFalse hnot =>
    simp only [List.map_append, List.map_cons, List.map_nil]
    rw [List.nodup_append]
    refine ⟨h, List.nodup_singleton _, ?_⟩
    intro k hk hk'
    simp only [List.mem_singleton] at hk'
    exact hnot (by simpa [TaggedSource.dedupKey, hk'] using hk)

theorem foldl_dedup_keys_nodup (l : List (Source × Nat)) (acc : List TaggedSource)
    (h : (acc.map TaggedSource.dedupKey).Nodup) :
    ((l.foldl dedupStep acc).map TaggedSource.dedupKey).Nodup := by
  induction l generalizing acc with
  | nil => exact h
  | cons p rest ih => exact ih (dedupStep acc p) (dedupStep_keys_nodup acc p h)

theorem foldl_dedup_keys_mono (l : List (Source × Nat)) (acc : List TaggedSource)
    (k : String) (h : k ∈ acc.map TaggedSource.dedupKey) :
    k ∈ ((l.foldl dedupStep acc).map TaggedSource.dedupKey) := by
  induction l generalizing acc with
  | nil => exact h
  | cons p rest ih => exact ih (dedupStep acc p) (dedupStep_key_mono acc p k h)

theorem foldl_dedup_complete (l : List (Source × Nat)) (acc : List TaggedSource)
    (p : Source × Nat) (hp : p ∈ l) :
    p.1.dedupKey ∈ ((l.foldl dedupStep acc).map TaggedSource.dedupKey) := by
  induction l generalizing acc with
  | nil => cases hp
  | cons q rest ih =>
    simp only [List.foldl_cons]
    rcases List.mem_cons.mp hp with h | h
    · subst h
      exact foldl_dedup_keys_mono rest (dedupStep acc p) _ (dedupStep_key_mem acc p)
    · exact ih (dedupStep acc q) h

theorem foldl_dedup_first_wins (l : List (Source × Nat)) (acc : List TaggedSource)
    (hnd : (acc.map TaggedSource.dedupKey).Nodup) (t : TaggedSource)
    (ht : t ∈ l.foldl dedupStep acc) :
    t ∈ acc ∨
      (t.dedupKey ∉ acc.map TaggedSource.dedupKey ∧
        l.find? (fun p => decide (p.1.dedupKey = t.source.dedupKey)) =
          some (t.source, t.discovered_in_round)) := by
  induction l generalizing acc with
  | nil => exact Or.inl ht
  | cons p rest ih =>
    simp only [List.foldl_cons] at ht
    rcases ih (dedupStep acc p) (dedupStep_keys_nodup acc p hnd) ht with hin | ⟨hk, hfind⟩
    · -- t is already in the accumulator after one step
      unfold dedupStep at hin
      split at hin
      case isTrue hmem => exact Or.inl hin
      case isFalse hnot =>
        rcases List.mem_append.mp hin with hin' | hin'
        · exact Or.inl hin'
        · simp only [List.mem_singleton] at hin'
          subst hin'
          refine Or.inr ⟨hnot, ?_⟩
          simp [List.find?_cons]
    · -- t was found deeper in the stream
      have hknot : t.dedupKey ∉ acc.map TaggedSource.dedupKey :=
        fun hmem => hk (dedupStep_key_mono acc p _ hmem)
      refine Or.inr ⟨hknot, ?_⟩
      have hpred : decide (p.1.dedupKey = t.source.dedupKey) = false := by
        apply decide_eq_false
        intro hpe
        have hmem := dedupStep_key_mem acc p
        rw [hpe] at hmem
        exact hk hmem
      simp only [List.find?_cons, hpred]
      exact hfind

/-! ### Preservation lemmas for the round state -/

@[simp]
theorem advance_round_rn (st : RoundState) :
    st.advance_round.round_number = st.round_number + 1 := rfl

@[simp]
theorem add_tool_execution_rn (st : RoundState) (n r : String) (b : Bool) :
    (st.add_tool_execution n r b).round_number = st.round_number := rfl

@[simp]
theorem add_error_rn (st : RoundState) (e : String) (k : Nat) :
    (st.add_error e k).round_number = st.round_number := rfl

@[simp]
theorem add_sources_rn (st : RoundState) (srcs : List Source) (k : Nat) :
    (st.add_sources srcs k).round_number = st.round_number := rfl

@[simp]
theorem etfr_rn {σ : Type} (tm : ToolManagerModel σ) (content : List ContentBlock)
    (round_num : Nat) (rs : RoundState) (tmSt : σ) :
    (execute_tools_for_round tm content round_num rs tmSt).round_state.round_number =
      rs.round_number := by
  induction content generalizing rs tmSt with
  | nil => rfl
  | cons b rest ih =>
    cases b with
    | text t => simpa [execute_tools_for_round] using ih rs tmSt
    | tool_use id name input =>
      simp only [execute_tools_for_round]
      rcases h : tm.execute_tool tmSt name input with ⟨exc, tmSt'⟩
      cases exc <;> simp [ih]

@[simp]
theorem add_assistant_message_rs (c : Chain) (content : List ContentBlock) :
    (c.add_assistant_message content).round_state = c.round_state := rfl

@[simp]
theorem add_tool_results_rs (c : Chain) (trs : List ToolResultBlock) :
    (c.add_tool_results trs).round_state = c.round_state := by
  unfold Chain.add_tool_results
  split <;> rfl

@[simp]
theorem chain_advance_round_rs (c : Chain) :
    c.advance_round.round_state = c.round_state.advance_round := rfl

/-! ## Claim theorems -/

/-- C2.  In every round of sequential mode, `_execute_tools_for_round`
appends exactly one tool-result entry per `tool_use` content block of the
model response, carrying that block's `tool_use_id`, whether the tool
execution returns normally or raises: the ids of the appended tool-result
turns are exactly the ids of the tool-use requests, in order, and in
particular the counts agree. -/
theorem claim_C2_message_balance {σ : Type} (tm : ToolManagerModel σ)
    (content : List ContentBlock) (round_num : Nat) (rs : RoundState) (tmSt : σ) :
    (execute_tools_for_round tm content round_num rs tmSt).tool_results.map
        (fun r => r.tool_use_id) = toolUseIds content ∧
    (execute_tools_for_round tm content round_num rs tmSt).tool_results.length =
        (toolUseIds content).length := by
  have hmap : ∀ (cs : List ContentBlock) (rs' : RoundState) (st' : σ),
      (execute_tools_for_round tm cs round_num rs' st').tool_results.map
        (fun r => r.tool_use_id) = toolUseIds cs := by
    intro cs
    induction cs with
    | nil => intro rs' st'; rfl
    | cons b rest ih =>
      intro rs' st'
      cases b with
      | text t => simpa [execute_tools_for_round, toolUseIds] using ih rs' st'
      | tool_use id name input =>
        simp only [execute_tools_for_round, toolUseIds]
        rcases h : tm.execute_tool st' name input with ⟨exc, tmSt'⟩
        cases exc <;> simp [ih]
    
  refine ⟨hmap content rs tmSt, ?_⟩
  have := congrArg List.length (hmap content rs tmSt)
  simpa using this

/-- C4.  `RoundState.add_sources` keeps at most one accumulated record per
identity key `(course_title, lesson_number)` across any sequence of calls
starting from a fresh round state: (1) the identity keys of the
accumulated records are pairwise distinct; (2) every discovered source has
a representative with its identity key; and (3) every accumulated record
IS the first source of the discovery stream carrying its identity key,
tagged with the round number of that first discovery — later duplicates
are silently dropped. -/
theorem claim_C4_source_dedup (calls : List (List Source × Nat)) :
    (((runAddSources {} calls).sources_accumulated.map
        (fun t => identityKey t.source)).Nodup)
    ∧ (∀ p ∈ discoveries calls,
        ∃ t ∈ (runAddSources {} calls).sources_accumulated,
          identityKey t.source = identityKey p.1)
    ∧ (∀ t ∈ (runAddSources {} calls).sources_accumulated,
        (discoveries calls).find?
            (fun p => decide (identityKey p.1 = identityKey t.source)) =
          some (t.source, t.discovered_in_round)) := by
  have hfold := runAddSources_as_fold calls {}
  have hinit : (({} : RoundState)).sources_accumulated = [] := rfl
  rw [hinit] at hfold
  refine ⟨?_, ?_, ?_⟩
  · -- pairwise distinct identity keys
    have hnd : (((discoveries calls).foldl dedupStep []).map TaggedSource.dedupKey).Nodup :=
      foldl_dedup_keys_nodup _ [] (by simp)
    rw [← hfold] at hnd
    have hcomp :
        (runAddSources {} calls).sources_accumulated.map TaggedSource.dedupKey =
          ((runAddSources {} calls).sources_accumulated.map
            (fun t => identityKey t.source)).map (fun q => sourceKey q.1 q.2) := by
      rw [List.map_map]
      rfl
    rw [hcomp] at hnd
    exact List.Nodup.of_map _ hnd
  · -- completeness
    intro p hp
    have hmem := foldl_dedup_complete (discoveries calls) [] p hp
    rw [← hfold] at hmem
    rcases List.mem_map.mp hmem with ⟨t, htmem, hkey⟩
    exact ⟨t, htmem, (dedupKey_eq_iff t.source p.1).mp hkey⟩
  · -- first occurrence wins, tagged with its round
    intro t ht
    rw [hfold] at ht
    rcases foldl_dedup_first_wins (discoveries calls) [] (by simp) t ht with hin | ⟨_, hfind⟩
    · cases hin
    · rw [← hfind]
      apply find?_congr
      intro p
      exact decide_eq_decide.mpr ((dedupKey_eq_iff p.1 t.source).symm)

/-- Witness for C4: the deduplication scenario of the repository test
suite — two rounds both surfacing course A lesson 1 — evaluated through
the theorem: the identity keys end up pairwise distinct, and the entry for
course A lesson 1 is the round-1 discovery. -/
theorem claim_C4_source_dedup_witness :
    (((runAddSources {}
        [([{ course_title := "A", lesson_number := some 1, lesson_link := none }], 1),
         ([{ course_title := "A", lesson_number := some 1, lesson_link := none },
           { course_title := "B", lesson_number := some 2, lesson_link := none }], 2)]).sources_accumulated.map
        (fun t => identityKey t.source)).Nodup)
    ∧ (discoveries
        [([{ course_title := "A", lesson_number := some 1, lesson_link := none }], 1),
         ([{ course_title := "A", lesson_number := some 1, lesson_link := none },
           { course_title := "B", lesson_number := some 2, lesson_link := none }], 2)]).find?
          (fun p => decide (identityKey p.1 =
            identityKey { course_title := "A", lesson_number := some 1, lesson_link := none })) =
        some ({ course_title := "A", lesson_number := some 1, lesson_link := none }, 1) := by
  refine ⟨(claim_C4_source_dedup _).1, ?_⟩
  have h3 := (claim_C4_source_dedup
    [([{ course_title := "A", lesson_number := some 1, lesson_link := none }], 1),
     ([{ course_title := "A", lesson_number := some 1, lesson_link := none },
       { course_title := "B", lesson_number := some 2, lesson_link := none }], 2)]).2.2
  exact h3 { source := { course_title := "A", lesson_number := some 1, lesson_link := none },
             discovered_in_round := 1 } (by decide)

@[simp]
theorem add_assistant_message_mr (c : Chain) (content : List ContentBlock) :
    (c.add_assistant_message content).max_rounds = c.max_rounds := rfl

@[simp]
theorem add_tool_results_mr (c : Chain) (trs : List ToolResultBlock) :
    (c.add_tool_results trs).max_rounds = c.max_rounds := by
  unfold Chain.add_tool_results
  split <;> rfl

@[simp]
theorem chain_advance_round_mr (c : Chain) :
    c.advance_round.max_rounds = c.max_rounds := rfl

@[simp]
theorem ite_chain_round_state (P : Prop) [Decidable P] (c1 c2 : Chain) :
    (if P then c1 else c2).round_state = if P then c1.round_state else c2.round_state := by
  split <;> rfl

@[simp]
theorem ite_chain_max_rounds (P : Prop) [Decidable P] (c1 c2 : Chain) :
    (if P then c1 else c2).max_rounds = if P then c1.max_rounds else c2.max_rounds := by
  split <;> rfl

@[simp]
theorem ite_roundstate_rn (P : Prop) [Decidable P] (r1 r2 : RoundState) :
    (if P then r1 else r2).round_number = if P then r1.round_number else r2.round_number := by
  split <;> rfl

/-- C8.  `round_number` is monotonically non-decreasing and bounded by the
configured maximum of 2 throughout every execution of
`generate_response_sequential`: the only operation that changes it is
`advance_round`, which increments it by exactly one (the other
`RoundState` operations leave it unchanged), and the round state of every
completed execution — including executions in which the model requests
tool use in every round — ends with `round_number ≤ 2`. -/
theorem claim_C8_round_number_bounded :
    (∀ st : RoundState, st.advance_round.round_number = st.round_number + 1)
    ∧ (∀ (st : RoundState) (n r : String) (b : Bool),
        (st.add_tool_execution n r b).round_number = st.round_number)
    ∧ (∀ (st : RoundState) (e : String) (k : Nat),
        (st.add_error e k).round_number = st.round_number)
    ∧ (∀ (st : RoundState) (srcs : List Source) (k : Nat),
        (st.add_sources srcs k).round_number = st.round_number)
    ∧ (∀ (σ : Type) (client : Nat → Except String ModelResponse)
        (system_content query : String) (tools : List String)
        (tm : ToolManagerModel σ) (tmSt : σ),
        (generate_response_sequential client system_content query tools
            tm tmSt).trace.chain.round_state.round_number ≤ 2) := by
  refine ⟨fun _ => rfl, fun _ _ _ _ => rfl, fun _ _ _ => rfl, fun _ _ _ => rfl, ?_⟩
  intro σ client system_content query tools tm tmSt
  simp only [generate_response_sequential, generate_response_sequential_body]
  cases hc0 : client 0 with
  | error e => simp [execute_round, hc0]
  | ok resp1 =>
    by_cases hsr1 : resp1.stop_reason = "tool_use"
    case neg =>
      cases hft1 : firstText resp1.content with
      | ok t => simp [execute_round, hc0, hsr1, hft1]
      | error e => simp [execute_round, hc0, hsr1, hft1]
    case pos =>
      cases hc1 : client 1 with
      | error e =>
        simp [execute_round, hc0, hc1, hsr1, Chain.should_continue_rounds]
      | ok resp2 =>
        by_cases hsr2 : resp2.stop_reason = "tool_use"
        case neg =>
          cases hft2 : firstText resp2.content with
          | ok t =>
            simp [execute_round, hc0, hc1, hsr1, hsr2, hft2, Chain.should_continue_rounds]
          | error e =>
            simp [execute_round, hc0, hc1, hsr1, hsr2, hft2, Chain.should_continue_rounds]
        case pos =>
          simp [execute_round, hc0, hc1, hsr1, hsr2, Chain.should_continue_rounds]

/-- C1.  Evaluation of `generate_response_sequential` on a model oracle
that requests tool use in both rounds (the exhaustion path): exactly
3 model calls are made, but the tool schemas are included ONLY in round 1
request — the round 2 request already omits them, because `_execute_round`
evaluates `should_continue_rounds()` after `advance_round()` has set
`round_number = max_rounds`.  This contradicts the claim (and the spec),
which require schemas in each of the two round calls and the synthesis
call alone to omit them; the theorem documents the divergence at this
failing input. -/
theorem claim_C1_round2_request_lacks_tools :
    (generate_response_sequential clientToolsBothRounds "sys" "q" ["schema"]
        tmOkUnit ()).trace.requests.length = 3
    ∧ (generate_response_sequential clientToolsBothRounds "sys" "q" ["schema"]
        tmOkUnit ()).trace.requests.map (fun r => r.tools) =
      [some ["schema"], none, none]
    ∧ (generate_response_sequential clientToolsBothRounds "sys" "q" ["schema"]
        tmOkUnit ()).answer = "final synthesis" := by
  refine ⟨rfl, rfl, rfl⟩

/-- Any raise inside the round loop happens after the first
`advance_round()`: whenever the body raises, the chain at the raise point
has a positive round number (the technical-issue branch of the
query-boundary handler is unreachable). -/
theorem body_error_rn_pos {σ : Type} (client : Nat → Except String ModelResponse)
    (system_content query : String) (tools : List String)
    (tm : ToolManagerModel σ) (tmSt : σ) (e : String) (tr : SeqTrace σ)
    (heq : generate_response_sequential_body client system_content query tools tm tmSt =
      Except.error (e, tr)) :
    0 < tr.chain.round_state.round_number := by
  revert heq
  simp only [generate_response_sequential_body]
  cases hc0 : client 0 with
  | error e0 =>
    intro heq
    simp only [execute_round, hc0, Except.error.injEq, Prod.mk.injEq] at heq
    rw [← heq.2]
    simp
  | ok resp1 =>
    by_cases hsr1 : resp1.stop_reason = "tool_use"
    case neg =>
      cases hft1 : firstText resp1.content with
      | ok t =>
        intro heq
        simp [execute_round, hc0, hsr1, hft1] at heq
      | error e1 =>
        intro heq
        simp only [execute_round, hc0, hsr1, hft1] at heq
        simp only [bne_iff_ne, ne_eq, hsr1, not_false_eq_true, if_true,
          Except.error.injEq, Prod.mk.injEq] at heq
        rw [← heq.2]
        simp
    case pos =>
      cases hc1 : client 1 with
      | error e1 =>
        intro heq
        simp only [execute_round, hc0, hc1, hsr1, Chain.should_continue_rounds] at heq
        simp only [bne_self_eq_false, if_false, Except.error.injEq, Prod.mk.injEq] at heq
        simp at heq
        rw [← heq.2]
        simp
      | ok resp2 =>
        by_cases hsr2 : resp2.stop_reason = "tool_use"
        case neg =>
          cases hft2 : firstText resp2.content with
          | ok t =>
            intro heq
            simp [execute_round, hc0, hc1, hsr1, hsr2, hft2,
              Chain.should_continue_rounds] at heq
          | error e2 =>
            intro heq
            simp only [execute_round, hc0, hc1, hsr1, hsr2, hft2,
              Chain.should_continue_rounds] at heq
            repeat' split at heq
            all_goals simp_all
            all_goals (rcases heq with ⟨h1, h2⟩; rw [← h2]; simp)
        case pos =>
          intro heq
          simp [execute_round, hc0, hc1, hsr1, hsr2, Chain.should_continue_rounds] at heq

/-- C3.  Exceptions never escape `generate_response_sequential`: (1) every
execution whose body raises returns the fixed apologetic partial
information message, and the raise always happens with
`round_number > 0` (the fixed technical-issue message branch exists in the
handler but is unreachable, because `advance_round` precedes every raise
site — so the claim conditional on `round_number = 0` holds vacuously);
(2) failure isolation: a tool that raises in round 1 still lets round 2
proceed — when the round 2 response is a text answer, that text is
returned and exactly two model calls were made, so a non-empty model text
yields a non-empty answer. -/
theorem claim_C3_exception_containment (σ : Type)
    (client : Nat → Except String ModelResponse)
    (system_content query : String) (tools : List String)
    (tm : ToolManagerModel σ) (tmSt : σ) :
    (∀ (e : String) (tr : SeqTrace σ),
      generate_response_sequential_body client system_content query tools tm tmSt =
          Except.error (e, tr) →
        0 < tr.chain.round_state.round_number ∧
        (generate_response_sequential client system_content query tools tm
            tmSt).answer = PARTIAL_MSG)
    ∧ (∀ (id name : String) (input : ToolInput) (e : String) (tmSt' : σ)
        (resp2 : ModelResponse) (t : String),
        client 0 =
          Except.ok (ModelResponse.mk "tool_use" [ContentBlock.tool_use id name input]) →
        tm.execute_tool tmSt name input = (Except.error e, tmSt') →
        client 1 = Except.ok resp2 →
        resp2.stop_reason ≠ "tool_use" →
        firstText resp2.content = Except.ok t →
        (generate_response_sequential client system_content query tools tm
            tmSt).answer = t ∧
        (generate_response_sequential client system_content query tools tm
            tmSt).trace.requests.length = 2) := by
  constructor
  · intro e tr heq
    have hpos := body_error_rn_pos client system_content query tools tm tmSt e tr heq
    refine ⟨hpos, ?_⟩
    simp [generate_response_sequential, heq, hpos]
  · intro id name input e tmSt' resp2 t hc0 htool hc1 hsr2 hft2
    constructor <;>
      simp [generate_response_sequential, generate_response_sequential_body,
        execute_round, execute_tools_for_round, hc0, htool, hc1, hsr2, hft2,
        Chain.should_continue_rounds]

/-- Witness for C3: with a model that is down from the first call the
answer is the fixed partial-information message, and with a tool that
raises in round 1 followed by a round 2 text answer, that text is
returned after exactly two model calls. -/
theorem claim_C3_exception_containment_witness :
    (generate_response_sequential clientDown "s" "q" [] tmOkUnit ()).answer =
        PARTIAL_MSG
    ∧ (generate_response_sequential clientToolThenText "s" "q" [] tmRaiseUnit
          ()).answer = "round two answer"
    ∧ (generate_response_sequential clientToolThenText "s" "q" [] tmRaiseUnit
          ()).trace.requests.length = 2 := by
  refine ⟨?_, ?_, ?_⟩
  · exact ((claim_C3_exception_containment Unit clientDown "s" "q" [] tmOkUnit ()).1
      _ _ rfl).2
  · exact ((claim_C3_exception_containment Unit clientToolThenText "s" "q" [] tmRaiseUnit ()).2
      "t1" "search_course_content" { query := "q1" } "boom" () _ "round two answer"
      rfl rfl rfl (by decide) rfl).1
  · exact ((claim_C3_exception_containment Unit clientToolThenText "s" "q" [] tmRaiseUnit ()).2
      "t1" "search_course_content" { query := "q1" } "boom" () _ "round two answer"
      rfl rfl rfl (by decide) rfl).2

/-- C5 counterexample.  The claim says a raising tool execution in
single-round mode is caught at the point of invocation and replaced by a
"Tool execution failed: <message>" tool-result turn.  At this concrete
input (model requests one tool call, the tool raises `boom`) the
exception instead propagates out of `generate_response` uncaught. -/
theorem claim_C5_counterexample :
    generate_response clientToolThenText "q" (some (tmRaiseUnit, ())) =
      Except.error "boom" := rfl

/-- C5 amended.  Single-round mode does NOT share sequential mode per-call
error catch: (1) the tool loop of `_handle_tool_execution` propagates the
first raise; (2) hence a raising tool propagates out of
`generate_response`; (3) only sequential mode `_execute_tools_for_round`
converts the raise into a synthetic `"Tool execution failed: <message>"`
tool-result turn. -/
theorem claim_C5_amended (σ : Type) (client : Nat → Except String ModelResponse)
    (tm : ToolManagerModel σ) (tmSt tmSt' : σ) (query id name : String)
    (input : ToolInput) (e : String) (rest : List ContentBlock)
    (round_num : Nat) (rs : RoundState) :
    (tm.execute_tool tmSt name input = (Except.error e, tmSt') →
      runToolsNoCatch tm tmSt (ContentBlock.tool_use id name input :: rest) =
        Except.error e)
    ∧ (client 0 =
        Except.ok (ModelResponse.mk "tool_use" [ContentBlock.tool_use id name input]) →
      tm.execute_tool tmSt name input = (Except.error e, tmSt') →
      generate_response client query (some (tm, tmSt)) = Except.error e)
    ∧ (tm.execute_tool tmSt name input = (Except.error e, tmSt') →
      (execute_tools_for_round tm (ContentBlock.tool_use id name input :: rest)
          round_num rs tmSt).tool_results =
        ToolResultBlock.mk id ("Tool execution failed: " ++ e) ::
          (execute_tools_for_round tm rest round_num
            ((rs.add_tool_execution name e false).add_error e round_num)
            tmSt').tool_results) := by
  refine ⟨?_, ?_, ?_⟩
  · intro h
    simp [runToolsNoCatch, h]
  · intro hc0 h
    simp [generate_response, handle_tool_execution, hc0, runToolsNoCatch, h]
  · intro h
    simp [execute_tools_for_round, h]

/-- Witness for the amended C5: concrete instances of the propagation and
of the sequential-mode synthetic result. -/
theorem claim_C5_amended_witness :
    runToolsNoCatch tmRaiseUnit ()
        [ContentBlock.tool_use "t1" "search_course_content" { query := "q1" }] =
      Except.error "boom"
    ∧ (execute_tools_for_round tmRaiseUnit
        [ContentBlock.tool_use "t1" "search_course_content" { query := "q1" }]
        1 {} ()).tool_results =
      [ToolResultBlock.mk "t1" ("Tool execution failed: " ++ "boom")] := by
  constructor
  · exact (claim_C5_amended Unit clientToolThenText tmRaiseUnit () () "q" "t1"
      "search_course_content" { query := "q1" } "boom" [] 1 {}).1 rfl
  · exact ((claim_C5_amended Unit clientToolThenText tmRaiseUnit () () "q" "t1"
      "search_course_content" { query := "q1" } "boom" [] 1 {}).2.2 rfl).trans rfl

/-- C6 counterexample.  Registering a second tool under an already
registered name does not raise: `register_tool` returns normally and
silently replaces the stored tool (last write wins), falsifying the
duplicate-name half of the claim. -/
theorem claim_C6_counterexample :
    ToolManager.register_tool
        { tools := [("a", { tool_def := { name := some "a", description := "d1" } })] }
        { tool_def := { name := some "a", description := "d2" } } =
      Except.ok
        { tools := [("a", { tool_def := { name := some "a", description := "d2" } })] } := rfl

/-- C6 amended.  `register_tool` raises eagerly exactly when the tool
definition declares no usable name (missing key or empty string); a
duplicate name raises nothing — registration succeeds and the new tool
replaces the previously registered one under that name. -/
theorem claim_C6_amended (m : ToolManager) (tool : PyTool) :
    (tool.tool_def.name = none →
      m.register_tool tool =
        Except.error ("Tool must have a " ++ squote ++ "name" ++ squote ++ " in its definition"))
    ∧ (tool.tool_def.name = some "" →
      m.register_tool tool =
        Except.error ("Tool must have a " ++ squote ++ "name" ++ squote ++ " in its definition"))
    ∧ (∀ n, tool.tool_def.name = some n → n ≠ "" →
      m.register_tool tool = Except.ok { tools := dictInsert m.tools n tool } ∧
      dictGet (dictInsert m.tools n tool) n = some tool) := by
  refine ⟨?_, ?_, ?_⟩
  · intro h
    simp [ToolManager.register_tool, h]
  · intro h
    simp [ToolManager.register_tool, h]
  · intro n hn hne
    refine ⟨by simp [ToolManager.register_tool, hn, hne], ?_⟩
    induction m.tools with
    | nil => simp [dictInsert, dictGet]
    | cons p rest ih =>
      by_cases hp : p.1 = n
      · simp [dictInsert, hp, dictGet]
      · simp only [dictInsert, hp, if_false]
        simp only [dictGet, List.find?_cons]
        have : (decide (p.1 = n)) = false := decide_eq_false hp
        simp only [this]
        exact ih

/-- Witness for the amended C6: a nameless tool is rejected eagerly, and a
duplicate registration succeeds with the new tool stored under the name. -/
theorem claim_C6_amended_witness :
    ToolManager.register_tool { tools := [] }
        { tool_def := { name := none, description := "d0" } } =
      Except.error ("Tool must have a " ++ squote ++ "name" ++ squote ++ " in its definition")
    ∧ ToolManager.register_tool
        { tools := [("a", { tool_def := { name := some "a", description := "d1" } })] }
        { tool_def := { name := some "a", description := "d2" } } =
      Except.ok
        { tools := [("a", { tool_def := { name := some "a", description := "d2" } })] }
    ∧ dictGet
        (dictInsert [("a", { tool_def := { name := some "a", description := "d1" } })] "a"
          { tool_def := { name := some "a", description := "d2" } }) "a" =
      some { tool_def := { name := some "a", description := "d2" } } := by
  refine ⟨?_, ?_, ?_⟩
  · exact (claim_C6_amended { tools := [] }
      { tool_def := { name := none, description := "d0" } }).1 rfl
  · exact (((claim_C6_amended
      { tools := [("a", { tool_def := { name := some "a", description := "d1" } })] }
      { tool_def := { name := some "a", description := "d2" } }).2.2 "a" rfl
      (by decide)).1)
  · exact (((claim_C6_amended
      { tools := [("a", { tool_def := { name := some "a", description := "d1" } })] }
      { tool_def := { name := some "a", description := "d2" } }).2.2 "a" rfl
      (by decide)).2)

/-- C7 counterexample.  The claim requires the zero-match message to name
the lesson filter also when `lesson_number = 0`; at this concrete input
(zero matches, `lesson_number=0` supplied) the returned message is the
bare no-content message — the digit 0 does not occur in it at all,
because `if lesson_number:` is false for the Python int 0. -/
theorem claim_C7_counterexample :
    (CourseSearchTool.execute storeNoResults [] "variables" none (some 0)).1 =
        "No relevant content found."
    ∧ ((CourseSearchTool.execute storeNoResults [] "variables" none
        (some 0)).1.toList.contains '0') = false := ⟨rfl, rfl⟩

/-- C7 amended.  On zero matches with no service error the tool returns
the human-readable no-content message naming each TRUTHY filter: the
course name is included exactly when `course_name` is supplied and
nonempty, and the lesson number exactly when `lesson_number` is supplied
and nonzero (lesson 0 and an empty course name are silently dropped by
Python truthiness); no source record is added. -/
theorem claim_C7_amended (store : VectorStoreModel) (last_sources : List Source)
    (query : String) (course_name : Option String) (lesson_number : Option Int)
    (results : SearchResults)
    (hs : store.search query course_name lesson_number = Except.ok results)
    (herr : pyTruthyStrOpt results.error = false)
    (hempty : results.is_empty = true) :
    CourseSearchTool.execute store last_sources query course_name lesson_number =
      ("No relevant content found" ++
        (match course_name with
         | some c => if c = "" then "" else " in course " ++ squote ++ c ++ squote
         | none => "") ++
        (match lesson_number with
         | some n => if n = 0 then "" else " in lesson " ++ intStr n
         | none => "") ++ ".", last_sources) := by
  simp only [CourseSearchTool.execute, hs, herr, hempty, Bool.false_eq_true,
    if_false, if_true]
  cases course_name with
  | none =>
    cases lesson_number with
    | none => simp [pyTruthyStrOpt, pyTruthyIntOpt]
    | some n =>
      by_cases hn : n = 0 <;>
        simp [pyTruthyStrOpt, pyTruthyIntOpt, pyStrOptInt, hn]
  | some c =>
    by_cases hc : c = ""
    case pos =>
      cases lesson_number with
      | none => simp [pyTruthyStrOpt, pyTruthyIntOpt, hc]
      | some n =>
        by_cases hn : n = 0 <;>
          simp [pyTruthyStrOpt, pyTruthyIntOpt, pyStrOptInt, hc, hn]
    case neg =>
      cases lesson_number with
      | none => simp [pyTruthyStrOpt, pyTruthyIntOpt, hc]
      | some n =>
        by_cases hn : n = 0 <;>
          simp [pyTruthyStrOpt, pyTruthyIntOpt, pyStrOptInt, hc, hn,
            String.append_assoc]

/-- Witness for the amended C7: both filters supplied and truthy — the
message names the course and lesson 5 (matching the repository test
expectations) and `last_sources` is untouched. -/
theorem claim_C7_amended_witness :
    CourseSearchTool.execute storeNoResults [] "x" (some "Python Basics") (some 5) =
      ("No relevant content found" ++
        (" in course " ++ squote ++ "Python Basics" ++ squote) ++
        (" in lesson " ++ intStr 5) ++ ".", []) := by
  have h := claim_C7_amended storeNoResults [] "x" (some "Python Basics") (some 5)
    { documents := [], metadata := [], error := none } rfl rfl rfl
  exact h.trans (by simp)

/-- C9.  `last_sources` is a frame of every non-successful
`CourseSearchTool.execute` path: a raising search, a service error result,
an empty result, and a raise inside formatting all leave the tool
`last_sources` exactly as it was, so `ToolManager.get_last_sources` still
returns the sources of an earlier successful search after a later empty
or failed one. -/
theorem claim_C9_last_sources_frame (store : VectorStoreModel)
    (last_sources : List Source) (query : String) (course_name : Option String)
    (lesson_number : Option Int) :
    (∀ e, store.search query course_name lesson_number = Except.error e →
      (CourseSearchTool.execute store last_sources query course_name
        lesson_number).2 = last_sources)
    ∧ (∀ results, store.search query course_name lesson_number = Except.ok results →
      pyTruthyStrOpt results.error = true →
      (CourseSearchTool.execute store last_sources query course_name
        lesson_number).2 = last_sources)
    ∧ (∀ results, store.search query course_name lesson_number = Except.ok results →
      pyTruthyStrOpt results.error = false → results.is_empty = true →
      (CourseSearchTool.execute store last_sources query course_name
        lesson_number).2 = last_sources)
    ∧ (∀ results e, store.search query course_name lesson_number = Except.ok results →
      pyTruthyStrOpt results.error = false → results.is_empty = false →
      format_results store results = Except.error e →
      (CourseSearchTool.execute store last_sources query course_name
        lesson_number).2 = last_sources)
    ∧ (last_sources ≠ [] → managerGetLastSources last_sources = last_sources) := by
  refine ⟨?_, ?_, ?_, ?_, ?_⟩
  · intro e hs
    simp [CourseSearchTool.execute, hs]
  · intro results hs herr
    simp [CourseSearchTool.execute, hs, herr]
  · intro results hs herr hempty
    simp [CourseSearchTool.execute, hs, herr, hempty]
  · intro results e hs herr hempty hfmt
    simp [CourseSearchTool.execute, hs, herr, hempty, hfmt]
  · intro hne
    simp [managerGetLastSources, hne]

/-- Witness for C9: after a successful search left one source record, a
later raising search leaves it unchanged and the manager still reports
it. -/
theorem claim_C9_last_sources_frame_witness :
    (CourseSearchTool.execute storeRaises
        [{ course_title := "A", lesson_number := some 1, lesson_link := none }]
        "q" none none).2 =
      [{ course_title := "A", lesson_number := some 1, lesson_link := none }]
    ∧ managerGetLastSources
        [{ course_title := "A", lesson_number := some 1, lesson_link := none }] =
      [{ course_title := "A", lesson_number := some 1, lesson_link := none }] := by
  constructor
  · exact (claim_C9_last_sources_frame storeRaises
      [{ course_title := "A", lesson_number := some 1, lesson_link := none }]
      "q" none none).1 "db down" rfl
  · exact (claim_C9_last_sources_frame storeRaises
      [{ course_title := "A", lesson_number := some 1, lesson_link := none }]
      "q" none none).2.2.2.2 (by decide)

/-! ### Helper lemmas for C10 -/

theorem flatten_appendToLast (r : ToolInvocationRecord) :
    ∀ (l : List (List ToolInvocationRecord)),
      (appendToLast r l).flatten = l.flatten ++ [r]
  | [] => by simp [appendToLast]
  | [l] => by simp [appendToLast]
  | l :: l' :: ls => by
    simp only [appendToLast, List.flatten_cons, flatten_appendToLast r (l' :: ls)]
    simp

theorem countFailures_add_success (st : RoundState) (n r : String) :
    countFailures (st.add_tool_execution n r true) = countFailures st := by
  simp [countFailures, RoundState.add_tool_execution, flatten_appendToLast,
    List.filter_append]

/-- C10.  `CourseSearchTool.execute` is total and never raises: a raise
from the search call or from the lesson-link lookup inside formatting is
caught and converted into the returned string
`"Tool execution failed: <message>"`.  Consequently, driving
`_execute_tools_for_round` through a `ToolManager` holding this tool never
takes the orchestrator per-call failure branch: `execute_tool` always
returns `Except.ok`, no `ErrorRecord` is appended, and no failed
`ToolInvocationRecord` is created. -/
theorem claim_C10_search_tool_total (store : VectorStoreModel)
    (last_sources : List Source) (query : String) (course_name : Option String)
    (lesson_number : Option Int) (content : List ContentBlock)
    (round_num : Nat) (rs : RoundState) :
    (∀ e, store.search query course_name lesson_number = Except.error e →
      CourseSearchTool.execute store last_sources query course_name lesson_number =
        ("Tool execution failed: " ++ e, last_sources))
    ∧ (∀ results e, store.search query course_name lesson_number = Except.ok results →
      pyTruthyStrOpt results.error = false → results.is_empty = false →
      format_results store results = Except.error e →
      CourseSearchTool.execute store last_sources query course_name lesson_number =
        ("Tool execution failed: " ++ e, last_sources))
    ∧ (∀ (name : String) (input : ToolInput) (ls : List Source),
      (((courseSearchToolManager store).execute_tool ls name input).1).isOk = true)
    ∧ ((execute_tools_for_round (courseSearchToolManager store) content round_num
        rs last_sources).round_state.errors_encountered = rs.errors_encountered
      ∧ countFailures (execute_tools_for_round (courseSearchToolManager store)
          content round_num rs last_sources).round_state = countFailures rs) := by
  refine ⟨?_, ?_, ?_, ?_⟩
  · intro e hs
    simp [CourseSearchTool.execute, hs]
  · intro results e hs herr hempty hfmt
    simp [CourseSearchTool.execute, hs, herr, hempty, hfmt]
  · intro name input ls
    by_cases h : name = "search_course_content" <;>
      simp [courseSearchToolManager, h, Except.isOk, Except.toBool]
  · induction content generalizing rs last_sources with
    | nil => exact ⟨rfl, rfl⟩
    | cons b rest ih =>
      cases b with
      | text t =>
        simpa [execute_tools_for_round] using ih last_sources rs
      | tool_use id name input =>
        by_cases h : name = "search_course_content"
        case pos =>
          have hexec : (courseSearchToolManager store).execute_tool last_sources
              name input =
              (Except.ok (CourseSearchTool.execute store last_sources input.query
                input.course_name input.lesson_number).1,
               (CourseSearchTool.execute store last_sources input.query
                input.course_name input.lesson_number).2) := by
            simp [courseSearchToolManager, h]
          have hrec := ih
            (CourseSearchTool.execute store last_sources input.query
              input.course_name input.lesson_number).2
            (rs.add_tool_execution name
              (CourseSearchTool.execute store last_sources input.query
                input.course_name input.lesson_number).1 true)
          simp only [execute_tools_for_round, hexec]
          refine ⟨?_, ?_⟩
          · rw [hrec.1]
            rfl
          · rw [hrec.2, countFailures_add_success]
        case neg =>
          have hexec : (courseSearchToolManager store).execute_tool last_sources
              name input =
              (Except.ok ("Tool " ++ squote ++ name ++ squote ++ " not found"),
                last_sources) := by
            simp [courseSearchToolManager, h]
          have hrec := ih last_sources (rs.add_tool_execution name
            ("Tool " ++ squote ++ name ++ squote ++ " not found") true)
          simp only [execute_tools_for_round, hexec]
          refine ⟨?_, ?_⟩
          · rw [hrec.1]
            rfl
          · rw [hrec.2, countFailures_add_success]

/-- Witness for C10: a raising search is converted into the failure string
with `last_sources` untouched. -/
theorem claim_C10_search_tool_total_witness :
    CourseSearchTool.execute storeRaises [] "q" none none =
      ("Tool execution failed: " ++ "db down", []) := by
  exact (claim_C10_search_tool_total storeRaises [] "q" none none [] 1 {}).1
    "db down" rfl
